import Mathlib

/-!
Verification of the Cloudflare clearance solver (`src/cf_solver/solver_zendriver.py`
and the Lightpanda CDP service `src/lightpanda_local/lightpanda_service.py`).

The Python code is shallowly embedded: pure helpers become Lean functions, the
asynchronous solve flow becomes a function over an explicit environment
(`World` / per-iteration `IterEnv`) that records the browser round trips as an
event trace, and wall-clock time is threaded as a natural number of
milliseconds.
-/

namespace CfSolver

/-! ### String containment, modelling Python's `in` operator on `str` -/

/-- True when `needle` is an initial segment of `hay`. -/
def isPrefixOfB : List Char → List Char → Bool
  | [], _ => true
  | _ :: _, [] => false
  | a :: as, b :: bs => a == b && isPrefixOfB as bs

/-- True when `needle` occurs contiguously in `hay`. -/
def isInfixOfB (needle : List Char) : List Char → Bool
  | [] => isPrefixOfB needle []
  | c :: cs => isPrefixOfB needle (c :: cs) || isInfixOfB needle cs

/-- Python's `needle in hay` on strings. -/
def substrB (needle hay : String) : Bool :=
  isInfixOfB needle.data hay.data

/-- A single-quote character, built numerically. -/
def squote : String := String.singleton (Char.ofNat 39)

/-! ### Cookies (`T_JSON_DICT` cookies as used by the solver) -/

/-- The cookie fields the solver reads: `name`, `value`, `domain`, `expires`
(an epoch-seconds float, modelled as a rational). -/
structure Cookie where
  name : String
  value : String
  domain : String
  expires : ℚ
deriving DecidableEq

/-- Model of `CloudflareSolver.extract_clearance_cookie`: first cookie named
`cf_clearance`, or `none`. -/
def extract_clearance_cookie : List Cookie → Option Cookie
  | [] => none
  | c :: cs =>
    if c.name = "cf_clearance" then some c else extract_clearance_cookie cs

/-! ### Challenge classification (`ChallengePlatform`, `detect_challenge`) -/

/-- The `ChallengePlatform` enum. -/
inductive ChallengePlatform
  | JAVASCRIPT
  | MANAGED
  | INTERACTIVE
deriving DecidableEq

/-- The enum member values. -/
def ChallengePlatform.value : ChallengePlatform → String
  | .JAVASCRIPT => "non-interactive"
  | .MANAGED => "managed"
  | .INTERACTIVE => "interactive"

/-- Iteration order of `for platform in ChallengePlatform` (declaration order). -/
def platformOrder : List ChallengePlatform :=
  [.JAVASCRIPT, .MANAGED, .INTERACTIVE]

/-- The marker searched in the page markup: `cType: '<value>'`. -/
def marker (p : ChallengePlatform) : String :=
  "cType: " ++ squote ++ p.value ++ squote

/-- The `for` loop body of `detect_challenge`: first platform whose marker
occurs in the markup. -/
def detectAux : List ChallengePlatform → String → Option ChallengePlatform
  | [], _ => none
  | p :: ps, html =>
    if substrB (marker p) html then some p else detectAux ps html

/-- Model of `CloudflareSolver.detect_challenge`, a pure function of the page markup. -/
def detect_challenge (html : String) : Option ChallengePlatform :=
  detectAux platformOrder html

/-! ### The polling loop (`CloudflareSolver.solve_challenge`)

The loop talks to the remote browser, so it is embedded against an explicit
per-iteration environment: round-trip durations in milliseconds, the cookie
jar and the page markup visible at that iteration, and how the widget lookup
behaves.  Wall-clock time is a natural number of milliseconds threaded through
the loop; `datetime.now()` corresponds to reading that counter. -/

/-- Environment of one loop iteration: durations of the browser round trips,
the state the browser reports, and which DOM lookups fail. -/
structure IterEnv where
  /-- duration of `self.get_cookies()` in ms -/
  rtCookies : ℕ
  /-- duration of `self.detect_challenge()` (the `get_content` round trip) in ms -/
  rtContent : ℕ
  /-- duration of `self.driver.main_tab.find("input")` in ms -/
  rtFind : ℕ
  /-- duration of `challenge.get_position()` in ms -/
  rtPos : ℕ
  /-- duration of `challenge.mouse_click()` in ms -/
  rtClick : ℕ
  /-- cookie jar returned by `get_cookies()` at this iteration -/
  jar : List Cookie
  /-- page markup returned by `get_content()` at this iteration -/
  html : String
  /-- whether `find("input")` raises `asyncio.TimeoutError` -/
  findFails : Bool
  /-- whether `widget_input.parent` exists with nonempty `shadow_roots` -/
  widgetReady : Bool
  /-- whether `challenge.children[0]` raises `IndexError` (no children) -/
  childMissing : Bool
  /-- whether `isinstance(challenge, Element)` holds for the first child -/
  childIsElement : Bool
  /-- value of `challenge.attrs["style"]`; `none` means the access raises `KeyError` -/
  styleAttr : Option String
  /-- whether `challenge.get_position()` raises -/
  posFails : Bool

/-- Exceptions that can escape a DOM lookup in the loop body. -/
inductive DomErr
  | findTimeout
  | indexError
  | keyError
deriving DecidableEq

/-- Browser interactions, recorded as an event trace. -/
inductive Event
  | setIdentity
  | launch
  | connect (url : String)
  | navigate
  | getCookies
  | getUserAgent
  | setMetadata
  | classify
  | find
  | sleep (ms : ℕ)
  | getPosition
  | click
deriving DecidableEq

/-- How `solve_challenge` ends: the `while` condition turned false because the
clearance cookie appeared / the challenge vanished / the deadline passed, or an
uncaught exception left the function, or the step budget of the model ran out. -/
inductive LoopResult
  | cookieFound (t : ℕ)
  | noChallenge (t : ℕ)
  | timedOut (t : ℕ)
  | raised (e : DomErr) (t : ℕ)
  | fuelOut
deriving DecidableEq

/-- Value of `timedelta.seconds` for an elapsed time of `tMs` milliseconds: the
seconds-of-day component, i.e. whole seconds modulo 86400. -/
def secondsComponent (tMs : ℕ) : ℕ :=
  (tMs / 1000) % 86400

/-- Model of `CloudflareSolver.solve_challenge`, one `while` iteration per unit of fuel.
`i` is the iteration index (selecting the environment), `t` the elapsed time in
milliseconds since `start_timestamp`.  Returns how the loop ended and the trace
of browser interactions. -/
def solve_challenge (b : ℕ → IterEnv) (timeout : ℕ) :
    ℕ → ℕ → ℕ → LoopResult × List Event
  | 0, _, _ => (.fuelOut, [])
  | fuel + 1, i, t =>
    let e := b i
    let t1 := t + e.rtCookies
    if (extract_clearance_cookie e.jar).isSome then
      (.cookieFound t1, [.getCookies])
    else
      let t2 := t1 + e.rtContent
      if (detect_challenge e.html).isNone then
        (.noChallenge t2, [.getCookies, .classify])
      else if secondsComponent t2 < timeout then
        let t3 := t2 + e.rtFind
        if e.findFails then
          (.raised .findTimeout t3, [.getCookies, .classify, .find])
        else if ¬ e.widgetReady then
          let r := solve_challenge b timeout fuel (i + 1) (t3 + 250)
          (r.1, [.getCookies, .classify, .find, .sleep 250] ++ r.2)
        else if e.childMissing then
          (.raised .indexError t3, [.getCookies, .classify, .find])
        else if ¬ e.childIsElement then
          let r := solve_challenge b timeout fuel (i + 1) t3
          (r.1, [.getCookies, .classify, .find] ++ r.2)
        else
          match e.styleAttr with
          | none => (.raised .keyError t3, [.getCookies, .classify, .find])
          | some st =>
            if substrB "display: none;" st then
              let r := solve_challenge b timeout fuel (i + 1) t3
              (r.1, [.getCookies, .classify, .find] ++ r.2)
            else
              let t4 := t3 + 1000 + e.rtPos
              if e.posFails then
                let r := solve_challenge b timeout fuel (i + 1) t4
                (r.1, [.getCookies, .classify, .find, .sleep 1000,
                       .getPosition] ++ r.2)
              else
                let r := solve_challenge b timeout fuel (i + 1) (t4 + e.rtClick)
                (r.1, [.getCookies, .classify, .find, .sleep 1000,
                       .getPosition, .click] ++ r.2)
      else
        (.timedOut t2, [.getCookies, .classify])

/-! ### The solve flow (`main`, lines 426-466, and `CloudflareSolver.__aenter__`)

`main` opens the solver, navigates, reads cookies, and only when no clearance
cookie is present does it set the user-agent metadata, classify the page and
run the polling loop.  The flow is embedded as a function of a `World`
(everything the browser answers) returning the outcome plus the event trace. -/

/-- Python truthiness of an optional string (`if self.user_agent:`). -/
def pyTruthyStrOpt : Option String → Bool
  | none => false
  | some s => ¬ (s = "")

/-- How the whole flow ends, as distinguished by `main` after the `async with`
block: a clearance cookie in hand, "No Cloudflare challenge detected.",
"Failed to retrieve a Cloudflare clearance cookie.", an exception that escaped
`solve_challenge` (only `asyncio.TimeoutError` is caught there), or the model's
step budget ran out. -/
inductive MainResult
  | cleared (c : Cookie)
  | noChallenge
  | noClearance
  | raised (e : DomErr)
  | outOfFuel
deriving DecidableEq

/-- Everything the environment feeds the solve flow: the configuration axes
the flow branches on (`cdp_url`, `user_agent`), the cookie jar and markup
observed after navigation, the per-iteration loop environment, and the jar
read after the loop. -/
structure World where
  cdpUrl : Option String
  userAgent : Option String
  jar0 : List Cookie
  html0 : String
  b : ℕ → IterEnv
  finalJar : List Cookie

/-- Model of `CloudflareSolver.__aenter__` as an event trace.  Standalone mode adds the
`--user-agent` launch flag (when a user agent was given, even an empty one) and
launches; CDP mode connects and then overrides `navigator.userAgent` only when
the user agent is truthy. -/
def aenterEvents (w : World) : List Event :=
  match w.cdpUrl with
  | none =>
    (if w.userAgent.isSome then [Event.setIdentity] else []) ++ [Event.launch]
  | some u =>
    [Event.connect u] ++
      (if pyTruthyStrOpt w.userAgent then [Event.setIdentity] else [])

/-- The solve flow of `main`: enter, navigate, read cookies; short-circuit on a
present clearance cookie; otherwise set metadata, classify, run the loop, and
re-read cookies.  `asyncio.TimeoutError` from the loop is swallowed by the
caller; other exceptions abort the flow. -/
def mainFlow (w : World) (timeout fuel : ℕ) : MainResult × List Event :=
  let evts1 := aenterEvents w ++ [Event.navigate, Event.getCookies]
  match extract_clearance_cookie w.jar0 with
  | some c => (.cleared c, evts1 ++ [Event.getUserAgent])
  | none =>
    let evts2 := evts1 ++
      [Event.getUserAgent, Event.setMetadata, Event.classify]
    match detect_challenge w.html0 with
    | none => (.noChallenge, evts2)
    | some _ =>
      let r := solve_challenge w.b timeout fuel 0 0
      match r.1 with
      | .raised .indexError _ => (.raised .indexError, evts2 ++ r.2)
      | .raised .keyError _ => (.raised .keyError, evts2 ++ r.2)
      | .fuelOut => (.outOfFuel, evts2 ++ r.2)
      | _ =>
        let evts3 := evts2 ++ r.2 ++ [Event.getCookies, Event.getUserAgent]
        match extract_clearance_cookie w.finalJar with
        | some c => (.cleared c, evts3)
        | none => (.noClearance, evts3)

/-! ### User-agent metadata derivation (`CloudflareSolver.set_user_agent_metadata`) -/

/-- Model of `zendriver.cdp.emulation.UserAgentBrandVersion`. -/
structure UserAgentBrandVersion where
  brand : String
  version : String
deriving DecidableEq

/-- What the solver reads off `user_agents.parse(user_agent)`:
`device.browser.version[0]`, `device.browser.version_string`,
`device.is_mobile`, `device.device.model`, `device.os.family`,
`device.os.version_string`.  The parser itself is an external library, so it is
a parameter of the embedding. -/
structure ParsedDevice where
  browserMajor : ℕ
  browserVersionString : String
  isMobile : Bool
  deviceModel : Option String
  osFamily : String
  osVersionString : String

/-- Model of `zendriver.cdp.emulation.UserAgentMetadata`. -/
structure UserAgentMetadata where
  architecture : String
  bitness : String
  brands : List UserAgentBrandVersion
  fullVersionList : List UserAgentBrandVersion
  mobile : Bool
  model : String
  platform : String
  platformVersion : String
  fullVersion : String
  wow64 : Bool
deriving DecidableEq

/-- The metadata object built by `set_user_agent_metadata`, as a function of
the library parse result for the given user-agent string. -/
def set_user_agent_metadata (parse : String → ParsedDevice)
    (userAgent : String) : UserAgentMetadata :=
  let device := parse userAgent
  { architecture := "x86"
    bitness := "64"
    brands :=
      [⟨"Not)A;Brand", "8"⟩,
       ⟨"Google Chrome", toString device.browserMajor⟩]
    fullVersionList :=
      [⟨"Not)A;Brand", "8"⟩,
       ⟨"Google Chrome", toString device.browserMajor⟩]
    mobile := device.isMobile
    model := device.deviceModel.getD ""
    platform := device.osFamily
    platformVersion := device.osVersionString
    fullVersion := device.browserVersionString
    wow64 := false }

/-! ### Persistence (`main`, lines 553-580) -/

/-- JSON values appearing in the persisted record. -/
inductive JVal
  | jstr (s : String)
  | jint (z : ℤ)
  | jcookies (cs : List Cookie)
  | jnull
deriving DecidableEq

/-- A persisted record: the dict literal appended by `main`, as an ordered
key/value list. -/
abbrev PersistedRecord := List (String × JVal)

/-- The persisted file content: domains in insertion order, each with its
ordered list of records. -/
abbrev Store := List (String × List PersistedRecord)

/-- Value of `timedelta(days=365).total_seconds()`. -/
def secondsPer365Days : ℚ := 31536000

/-- Python's `int()` on a real number: truncation toward zero. -/
def pyInt (q : ℚ) : ℤ :=
  if 0 ≤ q then ⌊q⌋ else ⌈q⌉

/-- The dict literal appended by `main`:
`unix_timestamp`, `timestamp`, `cf_clearance`, `cookies`, `user_agent`,
`proxy`.  `fromtimestamp` stands for the external
`datetime.fromtimestamp(·, tz).isoformat()` conversion; it receives exactly
the shifted value `expires - timedelta(days=365).total_seconds()`. -/
def clearanceRecord (fromtimestamp : ℚ → String) (clearance : Cookie)
    (allCookies : List Cookie) (userAgent : String) (proxy : Option String) :
    PersistedRecord :=
  let unixTimestamp : ℚ := clearance.expires - secondsPer365Days
  [("unix_timestamp", JVal.jint (pyInt unixTimestamp)),
   ("timestamp", JVal.jstr (fromtimestamp unixTimestamp)),
   ("cf_clearance", JVal.jstr clearance.value),
   ("cookies", JVal.jcookies allCookies),
   ("user_agent", JVal.jstr userAgent),
   ("proxy", match proxy with | some p => JVal.jstr p | none => JVal.jnull)]

/-- First value bound to a key in an ordered key/value list. -/
def assocFind (k : String) : PersistedRecord → Option JVal
  | [] => none
  | (k', v) :: rest => if k' = k then some v else assocFind k rest

/-- First record list bound to a domain in a store. -/
def storeFind (d : String) : Store → Option (List PersistedRecord)
  | [] => none
  | (d', rs) :: rest => if d' = d then some rs else storeFind d rest

/-- Model of `json_data.setdefault(domain, []).append(record)`: append to the existing
list for the domain, or add the domain at the end with a one-record list. -/
def setdefaultAppend : Store → String → PersistedRecord → Store
  | [], d, r => [(d, [r])]
  | (k, v) :: rest, d, r =>
    if k = d then (k, v ++ [r]) :: rest
    else (k, v) :: setdefaultAppend rest d r

/-- The read-modify-write of `main`: a missing or unparsable file
(`FileNotFoundError`, `json.JSONDecodeError`, modelled as `none`) starts from
`{}`; then the record is appended under the clearance cookie's domain. -/
def persistRecord (fileContent : Option Store) (domain : String)
    (entry : PersistedRecord) : Store :=
  setdefaultAppend (fileContent.getD []) domain entry

/-! ### Output assembly of `main` (lines 481-580) -/

/-- The joined cookie header built by `main` (name=value pairs joined by semicolons). -/
def cookieString (cookies : List Cookie) : String :=
  String.intercalate "; " (cookies.map (fun c => c.name ++ "=" ++ c.value))

/-- The outputs of `main` that depend on the solve result: the logged cookie
line, the cookie header substituted into the cURL/Wget/aria2 `COMMAND`
template, the appended record and the resulting store. -/
structure MainOutputs where
  printedCookieLine : String
  commandCookieHeader : String
  entry : PersistedRecord
  store : Store
deriving DecidableEq

/-- The tail of `main` after a clearance cookie was obtained, as a function of
the `--all-cookies` flag and the rest of the run's data.  `standalone` is
`mode == "standalone"`. -/
def mainOutputs (allCookiesFlag : Bool) (standalone : Bool)
    (proxy : Option String) (fromtimestamp : ℚ → String)
    (fileContent : Option Store) (clearance : Cookie)
    (allCookies : List Cookie) (userAgent : String) : MainOutputs :=
  let cs := cookieString allCookies
  let entry := clearanceRecord fromtimestamp clearance allCookies userAgent
    (if standalone then proxy else none)
  { printedCookieLine :=
      if allCookiesFlag then "All cookies: " ++ cs
      else "Cookie: cf_clearance=" ++ clearance.value
    commandCookieHeader :=
      if allCookiesFlag then cs else "cf_clearance=" ++ clearance.value
    entry := entry
    store := persistRecord fileContent clearance.domain entry }

/-! ### CDP endpoint validation (`lightpanda_service.py`) and attach mode -/

/-- Split a character list at the first occurrence of `needle`, returning the
parts before and after it, or `none` when `needle` does not occur. -/
def splitOnceAux (needle : List Char) : List Char →
    Option (List Char × List Char)
  | [] => if isPrefixOfB needle [] then some ([], []) else none
  | c :: cs =>
    if isPrefixOfB needle (c :: cs) then
      some ([], (c :: cs).drop needle.length)
    else
      match splitOnceAux needle cs with
      | some (pre, post) => some (c :: pre, post)
      | none => none

/-- Characters up to (excluding) the first occurrence of `ch`. -/
def takeUntilChar (ch : Char) : List Char → List Char
  | [] => []
  | c :: cs => if c = ch then [] else c :: takeUntilChar ch cs

/-- Split a character list at its last `:`, returning the part before and the
part after, or `none` when there is no `:`. -/
def splitLastColon (l : List Char) : Option (List Char × List Char) :=
  match splitOnceAux [':'] l.reverse with
  | some (revPort, revHost) => some (revHost.reverse, revPort.reverse)
  | none => none

/-- Decimal value of a digit list. -/
def digitsToNat (l : List Char) : ℕ :=
  l.foldl (fun n c => 10 * n + (c.toNat - 48)) 0

/-- What `parse_cdp_target` reads off `urllib.parse.urlparse(endpoint)`:
the (lowercased) scheme, hostname and port.  Modelled for endpoints of the
shape `scheme://netloc[/...]`: without `://` there is no netloc, hence no
hostname or port; the port is the all-digit suffix after the last `:` of the
netloc, valid up to 65535. -/
structure UrlParts where
  scheme : String
  hostname : Option String
  port : Option ℕ
deriving DecidableEq

/-- Model of `urllib.parse.urlparse` restricted to what `parse_cdp_target`
reads.  A host is reported lowercased and only when nonempty; a malformed or
out-of-range port is reported as `none` (in Python such a port makes the
`parsed.port` access raise `ValueError`, which likewise fails validation). -/
def urlparseModel (s : String) : UrlParts :=
  match splitOnceAux "://".data s.data with
  | none => { scheme := "", hostname := none, port := none }
  | some (schemeChars, rest) =>
    let netloc := takeUntilChar '/' rest
    let scheme := String.mk (schemeChars.map Char.toLower)
    match splitLastColon netloc with
    | none =>
      { scheme := scheme
        hostname :=
          if netloc = [] then none
          else some (String.mk (netloc.map Char.toLower))
        port := none }
    | some (hostChars, portChars) =>
      { scheme := scheme
        hostname :=
          if hostChars = [] then none
          else some (String.mk (hostChars.map Char.toLower))
        port :=
          if portChars ≠ [] ∧ portChars.all Char.isDigit ∧
              digitsToNat portChars ≤ 65535 then
            some (digitsToNat portChars)
          else none }

/-- Model of `lightpanda_service.CdpTarget`. -/
structure CdpTarget where
  host : String
  port : ℕ
deriving DecidableEq

/-- The `ValueError` message of `parse_cdp_target`. -/
def cdpEndpointErrorMessage : String :=
  "CDP endpoint must look like ws://127.0.0.1:9222 or http://127.0.0.1:9222"

/-- Model of `lightpanda_service.parse_cdp_target`: accept only when the scheme is one
of `ws`, `wss`, `http`, `https` and both hostname and port are truthy. -/
def parse_cdp_target (endpoint : String) : Except String CdpTarget :=
  let parsed := urlparseModel endpoint
  match parsed.hostname, parsed.port with
  | some h, some p =>
    if (parsed.scheme = "ws" ∨ parsed.scheme = "wss" ∨
        parsed.scheme = "http" ∨ parsed.scheme = "https") ∧ h ≠ "" ∧ p ≠ 0 then
      .ok ⟨h, p⟩
    else
      .error cdpEndpointErrorMessage
  | _, _ => .error cdpEndpointErrorMessage

/-- Side effects of `ensure_lightpanda_server`. -/
inductive LPAction
  | probe (host : String) (port : ℕ)
  | startServer (host : String) (port : ℕ)
  | waitPort (host : String) (port : ℕ)
deriving DecidableEq

/-- Model of `lightpanda_service.ensure_lightpanda_server`: validate the endpoint
first (a `ValueError` propagates before anything runs), then probe the port
and, when closed, start the server and wait for the port. -/
def ensure_lightpanda_server (endpoint : String) (portOpen : Bool) :
    Except String (List LPAction) :=
  match parse_cdp_target endpoint with
  | .error m => .error m
  | .ok t =>
    if portOpen then .ok [.probe t.host t.port]
    else .ok [.probe t.host t.port, .startServer t.host t.port,
              .waitPort t.host t.port]

/-- Side effects of `CloudflareSolver.__aenter__`. -/
inductive AenterAction
  | addLaunchArg (arg : String)
  | enrichProxy (proxy : Option String)
  | launchBrowser
  | connectBrowser (url : String)
  | overrideNavigatorUserAgent (ua : String)
deriving DecidableEq

/-- Model of `CloudflareSolver.__aenter__` as an action list: standalone mode builds the
launch flags and starts a browser; attach mode connects to `cdp_url` directly
(no validation of its shape) and optionally overrides `navigator.userAgent`. -/
def aenterActions (cdpUrl : Option String) (userAgent : Option String)
    (http2 http3 : Bool) (proxy : Option String) : List AenterAction :=
  match cdpUrl with
  | none =>
    (match userAgent with
     | some ua => [AenterAction.addLaunchArg ("--user-agent=" ++ ua)]
     | none => []) ++
    (if http2 then [] else [AenterAction.addLaunchArg "--disable-http2"]) ++
    (if http3 then [] else [AenterAction.addLaunchArg "--disable-quic"]) ++
    [AenterAction.enrichProxy proxy, AenterAction.launchBrowser]
  | some url =>
    [AenterAction.connectBrowser url] ++
      (match userAgent with
       | some ua =>
         if ua = "" then [] else [AenterAction.overrideNavigatorUserAgent ua]
       | none => [])

/-! ## Helper lemmas -/

theorem extract_eq_some_mem {l : List Cookie} {c : Cookie}
    (h : extract_clearance_cookie l = some c) :
    c ∈ l ∧ c.name = "cf_clearance" := by
  induction l with
  | nil => simp [extract_clearance_cookie] at h
  | cons k ks ih =>
    by_cases hk : k.name = "cf_clearance"
    · simp only [extract_clearance_cookie, if_pos hk] at h
      cases h
      exact ⟨List.mem_cons_self _ _, hk⟩
    · simp only [extract_clearance_cookie, if_neg hk] at h
      obtain ⟨hmem, hname⟩ := ih h
      exact ⟨List.mem_cons_of_mem _ hmem, hname⟩

theorem extract_isSome_of_mem {l : List Cookie} {c : Cookie}
    (hmem : c ∈ l) (hname : c.name = "cf_clearance") :
    (extract_clearance_cookie l).isSome := by
  induction l with
  | nil => cases hmem
  | cons k ks ih =>
    by_cases hk : k.name = "cf_clearance"
    · simp [extract_clearance_cookie, if_pos hk]
    · simp only [extract_clearance_cookie, if_neg hk]
      rcases List.mem_cons.mp hmem with h | h
      · exact absurd (h ▸ hname) hk
      · exact ih h

theorem extract_eq_of_filter_singleton {l : List Cookie} {c c' : Cookie}
    (hx : extract_clearance_cookie l = some c')
    (hf : l.filter (fun k => k.name == "cf_clearance") = [c]) :
    c' = c := by
  induction l with
  | nil => simp [extract_clearance_cookie] at hx
  | cons k ks ih =>
    by_cases hk : k.name = "cf_clearance"
    · simp only [extract_clearance_cookie, if_pos hk] at hx
      cases hx
      simp only [List.filter_cons, beq_iff_eq, hk, if_true] at hf
      have := List.cons_eq_cons.mp hf
      exact this.1
    · simp only [extract_clearance_cookie, if_neg hk] at hx
      have hkb : (k.name == "cf_clearance") = false := by
        simpa [beq_iff_eq] using hk
      simp only [List.filter_cons, hkb, if_false] at hf
      exact ih hx hf

theorem aenter_no_interaction (w : World) :
    Event.classify ∉ aenterEvents w ∧ Event.click ∉ aenterEvents w := by
  unfold aenterEvents
  cases w.cdpUrl with
  | none => cases hsome : w.userAgent.isSome <;> simp [hsome]
  | some u => cases hpt : pyTruthyStrOpt w.userAgent <;> simp [hpt]

/-! ## Claim C1 -/

/-- C1: for every configuration and every cookie jar that already contains a
cookie named `cf_clearance` when solving starts, the solve flow ends cleared
with a clearance cookie from that jar, the markup is never classified and the
click path is never invoked; when the jar holds exactly one such cookie, that
exact cookie is returned. -/
theorem claim1_cleared_short_circuit (w : World) (timeout fuel : ℕ)
    (c : Cookie) (hmem : c ∈ w.jar0) (hname : c.name = "cf_clearance") :
    ∃ c', (mainFlow w timeout fuel).1 = .cleared c' ∧
      c' ∈ w.jar0 ∧ c'.name = "cf_clearance" ∧
      Event.classify ∉ (mainFlow w timeout fuel).2 ∧
      Event.click ∉ (mainFlow w timeout fuel).2 ∧
      (w.jar0.filter (fun k => k.name == "cf_clearance") = [c] → c' = c) := by
  obtain ⟨c', heq⟩ :=
    Option.isSome_iff_exists.mp (extract_isSome_of_mem hmem hname)
  have hc' := extract_eq_some_mem heq
  have hae := aenter_no_interaction w
  refine ⟨c', ?_, hc'.1, hc'.2, ?_, ?_,
    fun hf => extract_eq_of_filter_singleton heq hf⟩
  · simp [mainFlow, heq]
  · simpa [mainFlow, heq] using hae.1
  · simpa [mainFlow, heq] using hae.2

/-- A concrete world whose jar already holds a clearance cookie. -/
def clearedWorld : World :=
  { cdpUrl := none
    userAgent := some "Mozilla/5.0"
    jar0 := [⟨"cf_clearance", "abc", "example.com", 1700000000⟩]
    html0 := ""
    b := fun _ =>
      ⟨0, 0, 0, 0, 0, [], "", false, false, false, false, none, false⟩
    finalJar := [] }

/-- Witness for C1 at a concrete world. -/
theorem claim1_witness :
    (⟨"cf_clearance", "abc", "example.com", 1700000000⟩ : Cookie) ∈
        clearedWorld.jar0 ∧
    (⟨"cf_clearance", "abc", "example.com", 1700000000⟩ : Cookie).name =
        "cf_clearance" ∧
    (∃ c', (mainFlow clearedWorld 30 10).1 = .cleared c' ∧
      c' ∈ clearedWorld.jar0 ∧ c'.name = "cf_clearance" ∧
      Event.classify ∉ (mainFlow clearedWorld 30 10).2 ∧
      Event.click ∉ (mainFlow clearedWorld 30 10).2 ∧
      (clearedWorld.jar0.filter (fun k => k.name == "cf_clearance") =
          [⟨"cf_clearance", "abc", "example.com", 1700000000⟩] →
        c' = ⟨"cf_clearance", "abc", "example.com", 1700000000⟩)) :=
  ⟨by simp [clearedWorld], rfl,
   claim1_cleared_short_circuit clearedWorld 30 10 _ (by simp [clearedWorld])
     rfl⟩

/-! ## Claim C2 -/

/-- C2 (counterexample): on markup containing both the `non-interactive` and
the `managed` markers, `detect_challenge` still returns a platform (the first
hit) although not exactly one of the three markers occurs. -/
theorem claim2_counterexample :
    detect_challenge ("cType: " ++ squote ++ "non-interactive" ++ squote ++
        " cType: " ++ squote ++ "managed" ++ squote) =
      some ChallengePlatform.JAVASCRIPT ∧
    (platformOrder.filter fun p =>
        substrB (marker p)
          ("cType: " ++ squote ++ "non-interactive" ++ squote ++
           " cType: " ++ squote ++ "managed" ++ squote)).length = 2 := by
  constructor
  · rfl
  · rfl

/-- C2 (amended): `detect_challenge` checks the three fixed markers in the
fixed order `JAVASCRIPT` (non-interactive), `MANAGED`, `INTERACTIVE` and
returns the first hit; it returns a platform if and only if at least one of
the three markers occurs, and `none` when none occurs. -/
theorem claim2_detect_first_hit (html : String) :
    detect_challenge html =
      (if substrB (marker .JAVASCRIPT) html then some .JAVASCRIPT
       else if substrB (marker .MANAGED) html then some .MANAGED
       else if substrB (marker .INTERACTIVE) html then some .INTERACTIVE
       else none) ∧
    ((detect_challenge html).isSome = true ↔
      (platformOrder.any fun p => substrB (marker p) html) = true) := by
  refine ⟨rfl, ?_⟩
  cases hJ : substrB (marker ChallengePlatform.JAVASCRIPT) html <;>
    cases hM : substrB (marker ChallengePlatform.MANAGED) html <;>
      cases hI : substrB (marker ChallengePlatform.INTERACTIVE) html <;>
        simp [detect_challenge, detectAux, platformOrder, hJ, hM, hI]

/-! ## Claim C5 -/

/-- C5 (counterexample): for a user agent whose parsed browser major version
is 120, the greasing entry of the brands list carries version `"8"`, not the
parsed major version, so not every brand/version entry reflects the parsed
major. -/
theorem claim5_counterexample :
    ¬ ∀ e ∈ (set_user_agent_metadata
        (fun _ => ⟨120, "120.0.6099.130", false, none, "Windows", "10"⟩)
        "Mozilla/5.0 Chrome/120.0.6099.130").brands,
      e.version = toString (120 : ℕ) := by
  intro h
  have := h ⟨"Not)A;Brand", "8"⟩ (by simp [set_user_agent_metadata])
  rw [show toString (120 : ℕ) = "120" from rfl] at this
  exact absurd this (by decide)

/-- C5 (amended): both the brands list and the full-version list consist of
exactly the fixed greasing entry `("Not)A;Brand", "8")` followed by a
`"Google Chrome"` entry carrying the major version parsed from the input user
agent; the two lists are identical, and the full version string is the parsed
browser version string. -/
theorem claim5_metadata_versions (parse : String → ParsedDevice)
    (ua : String) :
    (set_user_agent_metadata parse ua).brands =
      [⟨"Not)A;Brand", "8"⟩,
       ⟨"Google Chrome", toString (parse ua).browserMajor⟩] ∧
    (set_user_agent_metadata parse ua).fullVersionList =
      (set_user_agent_metadata parse ua).brands ∧
    (set_user_agent_metadata parse ua).fullVersion =
      (parse ua).browserVersionString :=
  ⟨rfl, rfl, rfl⟩

/-! ## Claim C7 -/

/-- C7 (counterexample): in attach mode the solver connects to the configured
endpoint without any shape validation: with the malformed endpoint
`not-a-url` — which `parse_cdp_target` rejects — `__aenter__` still attempts
the browser connection. -/
theorem claim7_counterexample :
    parse_cdp_target "not-a-url" = .error cdpEndpointErrorMessage ∧
    AenterAction.connectBrowser "not-a-url" ∈
      aenterActions (some "not-a-url") (some "Mozilla/5.0") true true none := by
  exact ⟨rfl, by simp [aenterActions]⟩

/-- C7 (amended): the Lightpanda service path validates the endpoint before
any probe or launch — `ensure_lightpanda_server` fails with the
`parse_cdp_target` error on a malformed endpoint and starts with a probe of
the parsed host/port on a well-formed one — while the solver's attach mode
always attempts the connection with the raw endpoint, performing no shape
validation; `ws://127.0.0.1:9222` is accepted. -/
theorem claim7_endpoint_validation :
    (∀ e m portOpen, parse_cdp_target e = .error m →
      ensure_lightpanda_server e portOpen = .error m) ∧
    (∀ e t portOpen acts, parse_cdp_target e = .ok t →
      ensure_lightpanda_server e portOpen = .ok acts →
      acts.head? = some (.probe t.host t.port)) ∧
    (∀ url ua h2 h3 proxy,
      AenterAction.connectBrowser url ∈
        aenterActions (some url) ua h2 h3 proxy) ∧
    parse_cdp_target "ws://127.0.0.1:9222" = .ok ⟨"127.0.0.1", 9222⟩ := by
  refine ⟨?_, ?_, ?_, rfl⟩
  · intro e m portOpen h
    simp [ensure_lightpanda_server, h]
  · intro e t portOpen acts h hok
    rw [ensure_lightpanda_server, h] at hok
    cases portOpen <;> simp_all <;> rw [← hok] <;> rfl
  · intro url ua h2 h3 proxy
    simp [aenterActions]

/-- Witness for C7 at concrete endpoints. -/
theorem claim7_witness :
    parse_cdp_target "ftp://127.0.0.1:9222" = .error cdpEndpointErrorMessage ∧
    ensure_lightpanda_server "ftp://127.0.0.1:9222" true =
      .error cdpEndpointErrorMessage :=
  ⟨rfl, claim7_endpoint_validation.1 "ftp://127.0.0.1:9222"
    cdpEndpointErrorMessage true rfl⟩

/-! ## Claim C8 -/

/-- C8: the persisted `unix_timestamp` is `int(expires - 365 days in seconds)`
and the ISO timestamp is derived (by the external `fromtimestamp` conversion)
from that same shifted value; hence for a cookie expiring less than a year
after `now` the shifted value — and with it the recorded timestamp — lies in
the past. -/
theorem claim8_expiry_shift (fromtimestamp : ℚ → String) (c : Cookie)
    (allCookies : List Cookie) (ua : String) (proxy : Option String)
    (now : ℤ) (h1 : secondsPer365Days ≤ c.expires)
    (h2 : c.expires < (now : ℚ) + secondsPer365Days) :
    assocFind "unix_timestamp"
        (clearanceRecord fromtimestamp c allCookies ua proxy) =
      some (.jint (pyInt (c.expires - secondsPer365Days))) ∧
    assocFind "timestamp"
        (clearanceRecord fromtimestamp c allCookies ua proxy) =
      some (.jstr (fromtimestamp (c.expires - secondsPer365Days))) ∧
    c.expires - secondsPer365Days < (now : ℚ) ∧
    pyInt (c.expires - secondsPer365Days) < now := by
  have hq0 : (0 : ℚ) ≤ c.expires - secondsPer365Days := by linarith
  have hqlt : c.expires - secondsPer365Days < (now : ℚ) := by linarith
  refine ⟨rfl, rfl, hqlt, ?_⟩
  rw [pyInt, if_pos hq0]
  exact Int.floor_lt.mpr hqlt

/-- Witness for C8 at a cookie expiring one second after the 365-day window
start. -/
theorem claim8_witness :
    secondsPer365Days ≤
        (⟨"cf_clearance", "v", "example.com", 31536001⟩ : Cookie).expires ∧
    (⟨"cf_clearance", "v", "example.com", 31536001⟩ : Cookie).expires <
        ((2 : ℤ) : ℚ) + secondsPer365Days ∧
    ((⟨"cf_clearance", "v", "example.com", 31536001⟩ : Cookie).expires -
        secondsPer365Days < ((2 : ℤ) : ℚ) ∧
      pyInt ((⟨"cf_clearance", "v", "example.com", 31536001⟩ : Cookie).expires -
        secondsPer365Days) < 2) :=
  ⟨by norm_num [secondsPer365Days], by norm_num [secondsPer365Days],
   (claim8_expiry_shift (fun _ => "") _ [] "UA" none 2
      (by norm_num [secondsPer365Days])
      (by norm_num [secondsPer365Days])).2.2⟩

/-! ## Claim C9 -/

theorem storeFind_setdefault_self (s : Store) (d : String)
    (r : PersistedRecord) :
    storeFind d (setdefaultAppend s d r) =
      some ((storeFind d s).getD [] ++ [r]) := by
  induction s with
  | nil => simp [setdefaultAppend, storeFind]
  | cons kv rest ih =>
    obtain ⟨k, v⟩ := kv
    by_cases hk : k = d
    · simp [setdefaultAppend, storeFind, hk]
    · simp [setdefaultAppend, storeFind, hk, ih]

theorem storeFind_setdefault_other (s : Store) (d d' : String)
    (r : PersistedRecord) (hne : d' ≠ d) :
    storeFind d' (setdefaultAppend s d r) = storeFind d' s := by
  induction s with
  | nil =>
    have hdd : ¬ d = d' := fun h => hne h.symm
    simp [setdefaultAppend, storeFind, hdd]
  | cons kv rest ih =>
    obtain ⟨k, v⟩ := kv
    by_cases hk : k = d
    · subst hk
      have hkd : ¬ k = d' := fun h => hne h.symm
      simp [setdefaultAppend, storeFind, hkd]
    · simp [setdefaultAppend, storeFind, hk, ih]

/-- C9 (counterexample): the appended record's keys are `unix_timestamp`,
`timestamp`, `cf_clearance`, `cookies`, `user_agent`, `proxy` — it has no
`iso_timestamp` and no `clearance_value` key, so the documented shape named
in the claim does not match the code. -/
theorem claim9_counterexample :
    (clearanceRecord (fun _ => "1969-01-01")
        ⟨"cf_clearance", "v", "example.com", 0⟩ [] "UA" none).map Prod.fst =
      ["unix_timestamp", "timestamp", "cf_clearance", "cookies",
       "user_agent", "proxy"] ∧
    assocFind "iso_timestamp"
      (clearanceRecord (fun _ => "1969-01-01")
        ⟨"cf_clearance", "v", "example.com", 0⟩ [] "UA" none) = none ∧
    assocFind "clearance_value"
      (clearanceRecord (fun _ => "1969-01-01")
        ⟨"cf_clearance", "v", "example.com", 0⟩ [] "UA" none) = none :=
  ⟨rfl, rfl, rfl⟩

/-- C9 (amended): persisting tolerates a missing or unparsable backing file by
starting from the empty structure, appends exactly one record to the target
domain's ordered list while preserving what was already stored there, leaves
every other domain unchanged, and the record carries the keys
`unix_timestamp`, `timestamp`, `cf_clearance`, `cookies`, `user_agent`,
`proxy` (the code's names for the documented iso-timestamp and
clearance-value fields). -/
theorem claim9_persist_append (r : PersistedRecord) (domain d' : String)
    (s : Store) (fromtimestamp : ℚ → String) (c : Cookie)
    (allCookies : List Cookie) (ua : String) (proxy : Option String)
    (hne : d' ≠ domain) :
    persistRecord none domain r = [(domain, [r])] ∧
    storeFind domain (persistRecord (some s) domain r) =
      some ((storeFind domain s).getD [] ++ [r]) ∧
    storeFind d' (persistRecord (some s) domain r) = storeFind d' s ∧
    (clearanceRecord fromtimestamp c allCookies ua proxy).map Prod.fst =
      ["unix_timestamp", "timestamp", "cf_clearance", "cookies",
       "user_agent", "proxy"] := by
  refine ⟨by simp [persistRecord, setdefaultAppend], ?_, ?_, rfl⟩
  · exact storeFind_setdefault_self s domain r
  · exact storeFind_setdefault_other s domain d' r hne

/-- Witness for C9 at a concrete store holding records for two domains. -/
theorem claim9_witness :
    ("other.com" : String) ≠ "example.com" ∧
    storeFind "other.com"
        (persistRecord (some [("example.com", []), ("other.com", [[]])])
          "example.com" [("user_agent", JVal.jstr "UA")]) =
      storeFind "other.com" [("example.com", []), ("other.com", [[]])] :=
  ⟨by decide,
   (claim9_persist_append [("user_agent", JVal.jstr "UA")] "example.com"
      "other.com" [("example.com", []), ("other.com", [[]])] (fun _ => "")
      ⟨"cf_clearance", "v", "example.com", 0⟩ [] "UA" none
      (by decide)).2.2.1⟩

/-! ## Claim C10 -/

/-- C10: flipping only the `--all-cookies` flag leaves the appended record and
the resulting store unchanged — the record's `cookies` field always holds the
full snapshot — while the flag only selects the printed cookie line and the
cookie header substituted into the generated download commands. -/
theorem claim10_record_flag_independent (standalone : Bool)
    (proxy : Option String) (fromtimestamp : ℚ → String)
    (fileContent : Option Store) (clearance : Cookie)
    (allCookies : List Cookie) (ua : String) :
    (mainOutputs true standalone proxy fromtimestamp fileContent clearance
        allCookies ua).entry =
      (mainOutputs false standalone proxy fromtimestamp fileContent clearance
        allCookies ua).entry ∧
    (mainOutputs true standalone proxy fromtimestamp fileContent clearance
        allCookies ua).store =
      (mainOutputs false standalone proxy fromtimestamp fileContent clearance
        allCookies ua).store ∧
    assocFind "cookies"
        ((mainOutputs true standalone proxy fromtimestamp fileContent
          clearance allCookies ua).entry) = some (.jcookies allCookies) ∧
    assocFind "cookies"
        ((mainOutputs false standalone proxy fromtimestamp fileContent
          clearance allCookies ua).entry) = some (.jcookies allCookies) :=
  ⟨rfl, rfl, rfl, rfl⟩

/-! ## Claim C4 -/

/-- Markup carrying the `managed` challenge marker. -/
def managedHtml : String := "cType: " ++ squote ++ "managed" ++ squote

/-- An iteration environment whose widget resolves but whose first child has
no `style` attribute, so `challenge.attrs["style"]` raises `KeyError`. -/
def styleErrEnv : IterEnv :=
  ⟨1, 1, 1, 1, 1, [], managedHtml, false, true, false, true, none, false⟩

/-- A world in which that environment is hit right after the challenge is
detected. -/
def styleErrWorld : World :=
  { cdpUrl := some "ws://127.0.0.1:9222"
    userAgent := some "Mozilla/5.0"
    jar0 := []
    html0 := managedHtml
    b := fun _ => styleErrEnv
    finalJar := [] }

/-- C4 (counterexample): a failing style-attribute access inside the
widget-resolution phase is not swallowed: `solve_challenge` ends with the
`KeyError` escaping, and the flow of `main` aborts with that exception (only
`asyncio.TimeoutError` is caught around `solve_challenge`). -/
theorem claim4_counterexample :
    (solve_challenge (fun (_ : ℕ) => styleErrEnv) 30 3 0 0).1 =
      .raised .keyError 3 ∧
    (mainFlow styleErrWorld 30 3).1 = .raised .keyError := by
  exact ⟨rfl, rfl⟩

/-- C4 (amended): the only failure the loop body swallows is a failing
`get_position` (`posFails` may hold at every iteration and still no exception
leaves the loop); provided element find succeeds, the first child exists and
the style attribute is present, no exception ever escapes `solve_challenge`. -/
theorem claim4_only_position_swallowed (b : ℕ → IterEnv) (timeout : ℕ)
    (hsafe : ∀ j, (b j).findFails = false ∧ (b j).childMissing = false ∧
      (b j).styleAttr.isSome) :
    ∀ fuel i t e te, (solve_challenge b timeout fuel i t).1 ≠ .raised e te := by
  intro fuel
  induction fuel with
  | zero =>
    intro i t e te
    simp [solve_challenge]
  | succ n ih =>
    intro i t e te
    obtain ⟨hff, hcm, hsa⟩ := hsafe i
    obtain ⟨st, hst⟩ := Option.isSome_iff_exists.mp hsa
    by_cases h1 : (extract_clearance_cookie (b i).jar).isSome
    · simp [solve_challenge, h1]
    · by_cases h2 : (detect_challenge (b i).html).isNone
      · simp [solve_challenge, h1, h2]
      · by_cases h3 :
          secondsComponent (t + (b i).rtCookies + (b i).rtContent) < timeout
        · by_cases h4 : (b i).widgetReady
          · by_cases h5 : (b i).childIsElement
            · by_cases h6 : substrB "display: none;" st
              · simpa [solve_challenge, h1, h2, h3, h4, h5, h6, hff, hcm,
                  hst] using ih (i + 1) _ e te
              · by_cases h7 : (b i).posFails
                · simpa [solve_challenge, h1, h2, h3, h4, h5, h6, h7, hff,
                    hcm, hst] using ih (i + 1) _ e te
                · simpa [solve_challenge, h1, h2, h3, h4, h5, h6, h7, hff,
                    hcm, hst] using ih (i + 1) _ e te
            · simpa [solve_challenge, h1, h2, h3, h4, h5, hff, hcm, hst]
                using ih (i + 1) _ e te
          · simpa [solve_challenge, h1, h2, h3, h4, hff, hcm, hst]
              using ih (i + 1) _ e te
        · simp [solve_challenge, h1, h2, h3]

/-- An iteration environment whose position computation always fails. -/
def posFailEnv : IterEnv :=
  ⟨1, 1, 1, 1, 1, [], managedHtml, false, true, false, true, some "", true⟩

/-- Witness for C4: with position computation failing at every iteration the
loop still never lets an exception escape. -/
theorem claim4_witness :
    (∀ j, ((fun (_ : ℕ) => posFailEnv) j).findFails = false ∧
      ((fun (_ : ℕ) => posFailEnv) j).childMissing = false ∧
      ((fun (_ : ℕ) => posFailEnv) j).styleAttr.isSome) ∧
    (solve_challenge (fun (_ : ℕ) => posFailEnv) 1 5 0 0).1 ≠
      .raised .keyError 3 :=
  ⟨fun _ => ⟨rfl, rfl, rfl⟩,
   claim4_only_position_swallowed (fun (_ : ℕ) => posFailEnv) 1
     (fun _ => ⟨rfl, rfl, rfl⟩) 5 0 0 .keyError 3⟩

/-! ## Claim C6 -/

/-- A world in CDP mode with an explicitly empty user-agent override. -/
def emptyUAWorld : World :=
  { cdpUrl := some "ws://127.0.0.1:9222"
    userAgent := some ""
    jar0 := []
    html0 := managedHtml
    b := fun (_ : ℕ) =>
      ⟨1, 1, 1, 1, 1, [], managedHtml, false, false, false, false, none,
       false⟩
    finalJar := [] }

/-- C6 (counterexample): in attach mode with an explicitly empty user-agent
override, classification happens although the script-visible identity channel
was never applied — only the wire-level metadata channel was — so a challenge
interaction with a single applied channel is reachable. -/
theorem claim6_counterexample :
    Event.classify ∈ (mainFlow emptyUAWorld 0 1).2 ∧
    Event.setMetadata ∈ (mainFlow emptyUAWorld 0 1).2 ∧
    Event.setIdentity ∉ (mainFlow emptyUAWorld 0 1).2 := by
  decide

theorem take_precedence (ev l1 l2 : List Event) (heq : ev = l1 ++ l2)
    (hid : Event.setIdentity ∈ l1) (hmd : Event.setMetadata ∈ l1)
    (hncl : Event.classify ∉ l1) (hnck : Event.click ∉ l1) (n : ℕ)
    (hor : Event.classify ∈ ev.take n ∨ Event.click ∈ ev.take n) :
    Event.setIdentity ∈ ev.take n ∧ Event.setMetadata ∈ ev.take n := by
  subst heq
  rcases le_or_lt n l1.length with hn | hn
  · exfalso
    have hsub : (l1 ++ l2).take n ⊆ l1 := by
      rw [List.take_append_eq_append_take, Nat.sub_eq_zero_of_le hn,
        List.take_zero, List.append_nil]
      exact List.take_subset n l1
    rcases hor with h | h
    · exact hncl (hsub h)
    · exact hnck (hsub h)
  · have hl1 : (l1 ++ l2).take n = l1 ++ l2.take (n - l1.length) := by
      rw [List.take_append_eq_append_take,
        List.take_of_length_le (le_of_lt hn)]
    rw [hl1]
    exact ⟨List.mem_append_left _ hid, List.mem_append_left _ hmd⟩

theorem setIdentity_mem_aenter (w : World) (s : String)
    (hua : w.userAgent = some s) (hs : s ≠ "") :
    Event.setIdentity ∈ aenterEvents w := by
  unfold aenterEvents
  cases w.cdpUrl with
  | none => simp [hua]
  | some u => simp [pyTruthyStrOpt, hua, hs]

theorem mainFlow_events_shape (w : World) (timeout fuel : ℕ)
    (hx : extract_clearance_cookie w.jar0 = none) :
    ∃ tail, (mainFlow w timeout fuel).2 =
      (aenterEvents w ++ [Event.navigate, Event.getCookies,
        Event.getUserAgent, Event.setMetadata]) ++
      (Event.classify :: tail) := by
  rcases hd : detect_challenge w.html0 with _ | p
  · exact ⟨[], by simp [mainFlow, hx, hd]⟩
  · rcases hr : (solve_challenge w.b timeout fuel 0 0).1 with
      t | t | t | ⟨e, t⟩ | _
    · rcases hf : extract_clearance_cookie w.finalJar with _ | c
      · exact ⟨(solve_challenge w.b timeout fuel 0 0).2 ++
          [Event.getCookies, Event.getUserAgent],
          by simp [mainFlow, hx, hd, hr, hf]⟩
      · exact ⟨(solve_challenge w.b timeout fuel 0 0).2 ++
          [Event.getCookies, Event.getUserAgent],
          by simp [mainFlow, hx, hd, hr, hf]⟩
    · rcases hf : extract_clearance_cookie w.finalJar with _ | c
      · exact ⟨(solve_challenge w.b timeout fuel 0 0).2 ++
          [Event.getCookies, Event.getUserAgent],
          by simp [mainFlow, hx, hd, hr, hf]⟩
      · exact ⟨(solve_challenge w.b timeout fuel 0 0).2 ++
          [Event.getCookies, Event.getUserAgent],
          by simp [mainFlow, hx, hd, hr, hf]⟩
    · rcases hf : extract_clearance_cookie w.finalJar with _ | c
      · exact ⟨(solve_challenge w.b timeout fuel 0 0).2 ++
          [Event.getCookies, Event.getUserAgent],
          by simp [mainFlow, hx, hd, hr, hf]⟩
      · exact ⟨(solve_challenge w.b timeout fuel 0 0).2 ++
          [Event.getCookies, Event.getUserAgent],
          by simp [mainFlow, hx, hd, hr, hf]⟩
    · rcases e with _ | _ | _
      · rcases hf : extract_clearance_cookie w.finalJar with _ | c
        · exact ⟨(solve_challenge w.b timeout fuel 0 0).2 ++
            [Event.getCookies, Event.getUserAgent],
            by simp [mainFlow, hx, hd, hr, hf]⟩
        · exact ⟨(solve_challenge w.b timeout fuel 0 0).2 ++
            [Event.getCookies, Event.getUserAgent],
            by simp [mainFlow, hx, hd, hr, hf]⟩
      · exact ⟨(solve_challenge w.b timeout fuel 0 0).2,
          by simp [mainFlow, hx, hd, hr]⟩
      · exact ⟨(solve_challenge w.b timeout fuel 0 0).2,
          by simp [mainFlow, hx, hd, hr]⟩
    · exact ⟨(solve_challenge w.b timeout fuel 0 0).2,
        by simp [mainFlow, hx, hd, hr]⟩

/-- C6 (amended): in every run whose user-agent override is nonempty — which
covers every run of `main`, since a missing override is replaced by a random
Chrome user agent — both channels (script-visible identity at session entry,
wire-level metadata before classification) are applied before any challenge
interaction: every trace prefix containing a classification or click already
contains both `setIdentity` and `setMetadata`. -/
theorem claim6_channels_before_interaction (w : World) (timeout fuel : ℕ)
    (s : String) (hua : w.userAgent = some s) (hs : s ≠ "") :
    ∀ n, (Event.classify ∈ (mainFlow w timeout fuel).2.take n ∨
          Event.click ∈ (mainFlow w timeout fuel).2.take n) →
      Event.setIdentity ∈ (mainFlow w timeout fuel).2.take n ∧
      Event.setMetadata ∈ (mainFlow w timeout fuel).2.take n := by
  intro n hor
  have hae := aenter_no_interaction w
  rcases hx : extract_clearance_cookie w.jar0 with _ | c
  · obtain ⟨tail, htail⟩ := mainFlow_events_shape w timeout fuel hx
    refine take_precedence _ _ _ htail ?_ ?_ ?_ ?_ n hor
    · exact List.mem_append_left _ (setIdentity_mem_aenter w s hua hs)
    · simp
    · simpa using hae.1
    · simpa using hae.2
  · exfalso
    have hev : (mainFlow w timeout fuel).2 =
        aenterEvents w ++ [Event.navigate, Event.getCookies,
          Event.getUserAgent] := by
      simp [mainFlow, hx]
    rw [hev] at hor
    have hsub := List.take_subset n (aenterEvents w ++
      [Event.navigate, Event.getCookies, Event.getUserAgent])
    rcases hor with h | h
    · have := hsub h
      simp only [List.mem_append] at this
      rcases this with h' | h'
      · exact hae.1 h'
      · simp at h'
    · have := hsub h
      simp only [List.mem_append] at this
      rcases this with h' | h'
      · exact hae.2 h'
      · simp at h'

/-- A world in CDP mode with a nonempty user-agent override and a managed
challenge on the page. -/
def namedUAWorld : World :=
  { cdpUrl := some "ws://127.0.0.1:9222"
    userAgent := some "Mozilla/5.0"
    jar0 := []
    html0 := managedHtml
    b := fun (_ : ℕ) =>
      ⟨1, 1, 1, 1, 1, [], managedHtml, false, false, false, false, none,
       false⟩
    finalJar := [] }

/-- Witness for C6: the 7-element trace prefix of a concrete run reaching the
first classification contains both channel applications. -/
theorem claim6_witness :
    (Event.classify ∈ (mainFlow namedUAWorld 0 1).2.take 7 ∨
     Event.click ∈ (mainFlow namedUAWorld 0 1).2.take 7) ∧
    (Event.setIdentity ∈ (mainFlow namedUAWorld 0 1).2.take 7 ∧
     Event.setMetadata ∈ (mainFlow namedUAWorld 0 1).2.take 7) :=
  ⟨Or.inl (by decide),
   claim6_channels_before_interaction namedUAWorld 0 1 "Mozilla/5.0" rfl
     (by decide) 7 (Or.inl (by decide))⟩

/-! ## Claim C3 -/

/-- An iteration environment on the click path: every round trip takes
200 ms, the widget is resolved and visible, the click succeeds, yet the
clearance cookie never appears. -/
def clickPathEnv : IterEnv :=
  ⟨200, 200, 200, 200, 200, [], managedHtml, false, true, false, true,
   some "", false⟩

/-- C3 (counterexample): with a 1-second deadline, a challenge marker always
present and clearance never appearing, a run on the click path exits only at
2400 ms — more than the deadline (1000 ms) plus one debounce interval (250 ms)
plus one in-flight round trip (here uniformly 200 ms): the settle wait and the
several round trips of an iteration all land after the last deadline check. -/
theorem claim3_counterexample :
    (solve_challenge (fun (_ : ℕ) => clickPathEnv) 1 10 0 0).1 =
      .timedOut 2400 ∧
    1000 * 1 + 250 + 200 < 2400 := by
  exact ⟨rfl, by norm_num⟩

theorem secondsComponent_eq_div {t : ℕ} (ht : t < 86400000) :
    secondsComponent t = t / 1000 := by
  unfold secondsComponent
  exact Nat.mod_eq_of_lt ((Nat.div_lt_iff_lt_mul (by norm_num)).mpr
    (by omega))

theorem c3_loop_step (b : ℕ → IterEnv) (timeout R : ℕ)
    (hrt : ∀ i, 1 ≤ (b i).rtCookies ∧ (b i).rtCookies ≤ R ∧
      (b i).rtContent ≤ R ∧ (b i).rtFind ≤ R ∧ (b i).rtPos ≤ R ∧
      (b i).rtClick ≤ R)
    (hjar : ∀ i, extract_clearance_cookie (b i).jar = none)
    (hchal : ∀ i, (detect_challenge (b i).html).isSome)
    (hsafe : ∀ i, (b i).findFails = false ∧ (b i).childMissing = false ∧
      (b i).styleAttr.isSome)
    (hday : 1000 * timeout + 5 * R + 1000 ≤ 86400000) :
    ∀ fuel i t, t < 1000 * timeout + 3 * R + 1000 →
      1000 * timeout + 3 * R + 1001 ≤ fuel + t →
      ∃ te, (solve_challenge b timeout fuel i t).1 = .timedOut te ∧
        1000 * timeout ≤ te ∧ te ≤ 1000 * timeout + 5 * R + 1000 := by
  intro fuel
  induction fuel with
  | zero =>
    intro i t hinv hfl
    omega
  | succ n ih =>
    intro i t hinv hfl
    obtain ⟨hc1, hcR, hcoR, hfR, hpR, hkR⟩ := hrt i
    have hjar' := hjar i
    obtain ⟨p, hp⟩ := Option.isSome_iff_exists.mp (hchal i)
    obtain ⟨hff, hcm, hsa⟩ := hsafe i
    obtain ⟨st, hst⟩ := Option.isSome_iff_exists.mp hsa
    have h86 : t + (b i).rtCookies + (b i).rtContent < 86400000 := by omega
    have hseq := secondsComponent_eq_div h86
    by_cases hlt :
      secondsComponent (t + (b i).rtCookies + (b i).rtContent) < timeout
    · have ht2 : t + (b i).rtCookies + (b i).rtContent < 1000 * timeout := by
        rw [hseq] at hlt
        have := (Nat.div_lt_iff_lt_mul (k := 1000) (by norm_num)).mp hlt
        omega
      by_cases h4 : (b i).widgetReady
      · by_cases h5 : (b i).childIsElement
        · by_cases h6 : substrB "display: none;" st
          · have hstep : (solve_challenge b timeout (n + 1) i t).1 =
                (solve_challenge b timeout n (i + 1)
                  (t + (b i).rtCookies + (b i).rtContent +
                    (b i).rtFind)).1 := by
              simp [solve_challenge, hjar', hp, hlt, hff, hcm, hst, h4, h5,
                h6]
            rw [hstep]
            exact ih (i + 1) _ (by omega) (by omega)
          · by_cases h7 : (b i).posFails
            · have hstep : (solve_challenge b timeout (n + 1) i t).1 =
                  (solve_challenge b timeout n (i + 1)
                    (t + (b i).rtCookies + (b i).rtContent +
                      (b i).rtFind + 1000 + (b i).rtPos)).1 := by
                simp [solve_challenge, hjar', hp, hlt, hff, hcm, hst, h4,
                  h5, h6, h7]
              rw [hstep]
              exact ih (i + 1) _ (by omega) (by omega)
            · have hstep : (solve_challenge b timeout (n + 1) i t).1 =
                  (solve_challenge b timeout n (i + 1)
                    (t + (b i).rtCookies + (b i).rtContent +
                      (b i).rtFind + 1000 + (b i).rtPos +
                      (b i).rtClick)).1 := by
                simp [solve_challenge, hjar', hp, hlt, hff, hcm, hst, h4,
                  h5, h6, h7]
              rw [hstep]
              exact ih (i + 1) _ (by omega) (by omega)
        · have hstep : (solve_challenge b timeout (n + 1) i t).1 =
              (solve_challenge b timeout n (i + 1)
                (t + (b i).rtCookies + (b i).rtContent + (b i).rtFind)).1 := by
            simp [solve_challenge, hjar', hp, hlt, hff, hcm, h4, h5]
          rw [hstep]
          exact ih (i + 1) _ (by omega) (by omega)
      · have hstep : (solve_challenge b timeout (n + 1) i t).1 =
            (solve_challenge b timeout n (i + 1)
              (t + (b i).rtCookies + (b i).rtContent + (b i).rtFind +
                250)).1 := by
          simp [solve_challenge, hjar', hp, hlt, hff, h4]
        rw [hstep]
        exact ih (i + 1) _ (by omega) (by omega)
    · refine ⟨t + (b i).rtCookies + (b i).rtContent, ?_, ?_, by omega⟩
      · simp [solve_challenge, hjar', hp, hlt]
      · rw [hseq] at hlt
        have := (Nat.le_div_iff_mul_le (k := 1000) (by norm_num)).mp
          (Nat.le_of_not_lt hlt)
        omega

/-- C3 (amended): for a deadline of `timeout` seconds (`timeout ≥ 1`, and
small enough that the day-wrapped `timedelta.seconds` comparison behaves like
elapsed seconds), with the challenge marker always present, clearance never
appearing, no raising DOM lookups, and every browser round trip taking
between 1 and `R` ms, the loop exits as timed out no earlier than the
deadline and no later than the deadline plus one settle interval (1000 ms)
plus up to five round trips — a bound that can exceed one debounce interval
plus one round trip. -/
theorem claim3_bounded_overrun (b : ℕ → IterEnv) (timeout R fuel : ℕ)
    (hrt : ∀ i, 1 ≤ (b i).rtCookies ∧ (b i).rtCookies ≤ R ∧
      (b i).rtContent ≤ R ∧ (b i).rtFind ≤ R ∧ (b i).rtPos ≤ R ∧
      (b i).rtClick ≤ R)
    (hjar : ∀ i, extract_clearance_cookie (b i).jar = none)
    (hchal : ∀ i, (detect_challenge (b i).html).isSome)
    (hsafe : ∀ i, (b i).findFails = false ∧ (b i).childMissing = false ∧
      (b i).styleAttr.isSome)
    (hday : 1000 * timeout + 5 * R + 1000 ≤ 86400000)
    (hfuel : 1000 * timeout + 3 * R + 1001 ≤ fuel) :
    ∃ te, (solve_challenge b timeout fuel 0 0).1 = .timedOut te ∧
      1000 * timeout ≤ te ∧ te ≤ 1000 * timeout + 5 * R + 1000 :=
  c3_loop_step b timeout R hrt hjar hchal hsafe hday fuel 0 0 (by omega)
    (by omega)

/-- An iteration environment with 1 ms round trips whose widget stays
hidden. -/
def hiddenWidgetEnv : IterEnv :=
  ⟨1, 1, 1, 1, 1, [], managedHtml, false, true, false, true,
   some "display: none;", false⟩

/-- Witness for C3 with 1 ms round trips, a 1-second deadline and a widget
that stays hidden. -/
theorem claim3_witness :
    (∀ i, 1 ≤ ((fun (_ : ℕ) => hiddenWidgetEnv) i).rtCookies ∧
      ((fun (_ : ℕ) => hiddenWidgetEnv) i).rtCookies ≤ 1 ∧
      ((fun (_ : ℕ) => hiddenWidgetEnv) i).rtContent ≤ 1 ∧
      ((fun (_ : ℕ) => hiddenWidgetEnv) i).rtFind ≤ 1 ∧
      ((fun (_ : ℕ) => hiddenWidgetEnv) i).rtPos ≤ 1 ∧
      ((fun (_ : ℕ) => hiddenWidgetEnv) i).rtClick ≤ 1) ∧
    (∃ te, (solve_challenge (fun (_ : ℕ) => hiddenWidgetEnv) 1 2004 0 0).1 =
        .timedOut te ∧
      1000 * 1 ≤ te ∧ te ≤ 1000 * 1 + 5 * 1 + 1000) :=
  ⟨fun _ => ⟨le_refl 1, le_refl 1, le_refl 1, le_refl 1, le_refl 1,
     le_refl 1⟩,
   claim3_bounded_overrun (fun (_ : ℕ) => hiddenWidgetEnv) 1 1 2004
     (fun _ => ⟨le_refl 1, le_refl 1, le_refl 1, le_refl 1, le_refl 1,
       le_refl 1⟩)
     (fun _ => rfl) (fun _ => rfl) (fun _ => ⟨rfl, rfl, rfl⟩)
     (by norm_num) (by norm_num)⟩

end CfSolver
